import Mathlib

/-!
Verification development for the AstroLuna Advanced chart computation engine
(bot_advanced.py). The Python functions are shallowly embedded over ℚ
(Python floats are modelled as exact rationals) and List Char (Python str).
External collaborators (the pytz/zoneinfo timezone database, the Swiss
Ephemeris julday and calc_ut oracles) are modelled as explicit environment
parameters, matching the spec, which treats them as external fallible oracles.
-/

namespace AstroLuna

/-- Decidable equality for Except results, so concrete runs of the
embedded fallible functions can be evaluated by decide. -/
instance {ε α : Type} [DecidableEq ε] [DecidableEq α] : DecidableEq (Except ε α) :=
  fun x y =>
    match x, y with
    | .error a, .error b =>
      if h : a = b then .isTrue (by rw [h]) else .isFalse (by simp [h])
    | .error _, .ok _ => .isFalse (by simp)
    | .ok _, .error _ => .isFalse (by simp)
    | .ok a, .ok b =>
      if h : a = b then .isTrue (by rw [h]) else .isFalse (by simp [h])

/-! ### Numeric model -/

/-- Python float modulo for a positive modulus, `x % y = x - y*floor(x/y)`,
as used by `(a - b + 180) % 360` in compute_synastry_and_summary. -/
def pymod (x y : ℚ) : ℚ := x - y * (⌊x / y⌋ : ℚ)

/-- Python builtin abs, written executably. -/
def pyabs (x : ℚ) : ℚ := if x < 0 then -x else x

/-- Circular angular separation `abs((a - b + 180) % 360 - 180)`
from compute_synastry_and_summary line 328. -/
def separation (a b : ℚ) : ℚ := pyabs (pymod (a - b + 180) 360 - 180)

/-- Aspect labels assigned by the synastry classifier (the Russian mood
strings of lines 330-341, abstracted to their category). -/
inductive AspectMood where
  | conjunction
  | opposition
  | trine
  | square
  | sextile
  | minor
deriving DecidableEq

/-- Aspect classification of a separation, mirroring the if/elif chain of
compute_synastry_and_summary lines 330-341 (strict comparisons, first
match wins). -/
def classify_aspect (diff : ℚ) : AspectMood :=
  if diff < 8 then .conjunction
  else if pyabs (diff - 180) < 8 then .opposition
  else if pyabs (diff - 120) < 8 then .trine
  else if pyabs (diff - 90) < 7 then .square
  else if pyabs (diff - 60) < 6 then .sextile
  else .minor

/-- The seven tracked bodies with their Swiss Ephemeris codes
(PLANETS table, lines 40-48; SE codes Sun=0 .. Saturn=6). -/
def PLANETS : List (String × ℤ) :=
  [("Sun", 0), ("Moon", 1), ("Mercury", 2), ("Venus", 3),
   ("Mars", 4), ("Jupiter", 5), ("Saturn", 6)]

def planet_names : List String := PLANETS.map Prod.fst

def planet_codes : List ℤ := PLANETS.map Prod.snd

/-- Dictionary get with default None: `pos.get(eng)` on the position dicts. -/
def dictGet (pos : List (String × Option ℚ)) (k : String) : Option ℚ :=
  match pos.lookup k with
  | some v => v
  | none => none

/-- The inter-aspect loop of compute_synastry_and_summary lines 322-342:
iterate bodies in PLANETS order, skip a body if either side is None,
else record the separation and its classification. -/
def inter_aspects (posA posB : List (String × Option ℚ)) :
    List (String × ℚ × AspectMood) :=
  PLANETS.filterMap fun p =>
    match dictGet posA p.1, dictGet posB p.1 with
    | some a, some b => some (p.1, separation a b, classify_aspect (separation a b))
    | _, _ => none

/-! ### Text model (parse_input_flexible, lines 132-162)

Python str is modelled as List Char. The regular expressions
`^\d{1,2}\.\d{1,2}\.\d{4}$` and `^\d{1,2}:\d{2}$` are implemented as
explicit token matchers (ASCII digits, which is what all inputs of the
spec use). -/

/-- Whitespace as stripped by Python str.strip / str.split(). -/
def isSpaceChar (c : Char) : Bool := c == ' ' || c == '\t' || c == '\n' || c == '\r'

/-- Split a character list at every separator character (keeping empty
pieces), like Python str.split(",") for a one-character separator. -/
def splitOnP (p : Char → Bool) : List Char → List (List Char)
  | [] => [[]]
  | c :: rest =>
    let r := splitOnP p rest
    if p c then [] :: r
    else (c :: r.headD []) :: r.tail

/-- Python str.strip(). -/
def pyStrip (l : List Char) : List Char :=
  ((l.dropWhile isSpaceChar).reverse.dropWhile isSpaceChar).reverse

/-- Python str.split() with no arguments: whitespace runs, no empties. -/
def pyTokens (l : List Char) : List (List Char) :=
  (splitOnP isSpaceChar l).filter (fun t => !t.isEmpty)

def allDigits (l : List Char) : Bool := !l.isEmpty && l.all Char.isDigit

/-- Token matcher for the date regex `^\d{1,2}\.\d{1,2}\.\d{4}$`. -/
def matchesDate (t : List Char) : Bool :=
  match splitOnP (· == '.') t with
  | [a, b, c] =>
    (a.length == 1 || a.length == 2) && allDigits a &&
    (b.length == 1 || b.length == 2) && allDigits b &&
    c.length == 4 && allDigits c
  | _ => false

/-- Token matcher for the time regex `^\d{1,2}:\d{2}$`. -/
def matchesTime (t : List Char) : Bool :=
  match splitOnP (· == ':') t with
  | [a, b] =>
    (a.length == 1 || a.length == 2) && allDigits a && b.length == 2 && allDigits b
  | _ => false

/-- The placeholder inserted when name or city tokens are missing. -/
def unknownField : List Char := "Неизвестно".toList

def orUnknown (l : List Char) : List Char := if l.isEmpty then unknownField else l

/-- The token scan of lines 146-151: find the first token matching the date
pattern, returning the tokens before it, the token, and the tokens after. -/
def scanDateTok (acc : List (List Char)) :
    List (List Char) → Option (List (List Char) × List Char × List (List Char))
  | [] => none
  | t :: rest =>
    if matchesDate t then some (acc.reverse, t, rest)
    else scanDateTok (t :: acc) rest

/-- The last-resort branch of parse_input_flexible, lines 142-156: the scan
must find a date token immediately followed by a time token, else the
function raises ValueError. -/
def fallback_scan (text : List Char) :
    Except Unit (List Char × List Char × List Char × List Char) :=
  match scanDateTok [] (pyTokens text) with
  | some (before, d, t :: rest) =>
    if matchesTime t then
      .ok (orUnknown (pyStrip (List.intercalate [' '] before)), d, t,
           orUnknown (pyStrip (List.intercalate [' '] rest)))
    else .error ()
  | _ => .error ()

/-- Whether the token scan finds a date token immediately followed by a
time token (the success condition of the last-resort branch). -/
def fallback_has_pair (text : List Char) : Bool :=
  match scanDateTok [] (pyTokens text) with
  | some (_, _, t :: _) => matchesTime t
  | _ => false

/-- Lines 137-140: split on commas; if fewer than 4 parts, re-split on
commas and semicolons (re.split of a [;,] class with trailing whitespace,
which after the per-part strip is splitting at each such character). -/
def recoveredParts (text : List Char) : List (List Char) :=
  let p1 := (splitOnP (· == ',') text).map pyStrip
  if p1.length < 4 then (splitOnP (fun c => c == ',' || c == ';') text).map pyStrip
  else p1

/-- parse_input_flexible, lines 132-162, over character lists: with at
least 4 recovered parts the record is (parts[0], parts[1], parts[2],
", ".join(parts[3:]).strip()); otherwise the token-scan fallback. -/
def parse_chars (text : List Char) :
    Except Unit (List Char × List Char × List Char × List Char) :=
  match recoveredParts text with
  | a :: b :: c :: d :: rest => .ok (a, b, c, pyStrip (List.intercalate [',', ' '] (d :: rest)))
  | _ => fallback_scan text

/-- parse_input_flexible on Python str. -/
def parse_input_flexible (text : String) :
    Except Unit (String × String × String × String) :=
  match parse_chars text.toList with
  | .ok (a, b, c, d) => .ok (String.mk a, String.mk b, String.mk c, String.mk d)
  | .error e => .error e

/-! ### Temporal normalization (convert_local_to_jd_with_tz, lines 164-190,
and the jd computation of generate_natal_chart_and_summary, lines 200-215)

Modelled from the spec: the Timezone Resolver (pytz.all_timezones and
zone-rule application via ZoneInfo/pytz) and the ephemeris day-count
function swe.julday are external collaborators of the repository (spec
section 6); they are passed as an explicit environment. localToUTC applies
the rules of a zone name to a local civil time (year, month, day, hour,
minute) and may throw; julday maps a UTC calendar date plus decimal hour
to the continuous day count. -/

structure TzEnv where
  allTimezones : List String
  localToUTC : String → ℤ × ℤ × ℤ × ℤ × ℤ → Except Unit (ℤ × ℤ × ℤ × ℤ × ℤ × ℤ)
  julday : ℤ → ℤ → ℤ → ℚ → ℚ

/-- CITY_TIMEZONE table, lines 85-97. -/
def CITY_TIMEZONE : List (String × String) :=
  [("Костанай", "Asia/Almaty"), ("Алматы", "Asia/Almaty"),
   ("Астана", "Asia/Nur-Sultan"), ("Нур-Султан", "Asia/Nur-Sultan"),
   ("Москва", "Europe/Moscow"), ("Санкт-Петербург", "Europe/Moscow"),
   ("Лондон", "Europe/London"), ("Нью-Йорк", "America/New_York"),
   ("Karachi", "Asia/Karachi"), ("Карачи", "Asia/Karachi")]

def digitsToNat (l : List Char) : Nat :=
  l.foldl (fun n c => 10 * n + (c.toNat - 48)) 0

/-- Python int(s) on a plain token: strip whitespace, optional sign, digits. -/
def parsePyInt (l : List Char) : Option ℤ :=
  match pyStrip l with
  | '-' :: r => if allDigits r then some (-(digitsToNat r : ℤ)) else none
  | '+' :: r => if allDigits r then some (digitsToNat r : ℤ) else none
  | r => if allDigits r then some (digitsToNat r : ℤ) else none

/-- Line 177: `day, month, year = map(int, date_s.split("."))` — exactly
three dot-separated integer fields or an exception. -/
def parseDateDots (s : String) : Option (ℤ × ℤ × ℤ) :=
  match splitOnP (· == '.') s.toList with
  | [a, b, c] => do
    let d ← parsePyInt a
    let m ← parsePyInt b
    let y ← parsePyInt c
    pure (d, m, y)
  | _ => none

/-- Line 178: `hour, minute = map(int, time_s.split(":"))`. -/
def parseTimeColon (s : String) : Option (ℤ × ℤ) :=
  match splitOnP (· == ':') s.toList with
  | [a, b] => do
    let h ← parsePyInt a
    let mi ← parsePyInt b
    pure (h, mi)
  | _ => none

/-- Lines 170-175 with Python truthiness: table value first, else the city
itself when it is a member of the timezone database, else no zone. -/
def resolve_tz_name (env : TzEnv) (city : String) : Option String :=
  let g := (CITY_TIMEZONE.lookup city).getD ""
  let t := if g = "" then (if city ∈ env.allTimezones then city else "") else g
  if t = "" then none else some t

/-- The body of the try block of convert_local_to_jd_with_tz (lines
169-187): `.error` is an uncaught exception inside the block, `.ok none`
is the explicit `return None` for an unresolvable zone, `.ok (some jd)` is
the tz-aware julian day. -/
def convert_body (env : TzEnv) (date_s time_s city : String) :
    Except Unit (Option ℚ) :=
  match resolve_tz_name env city with
  | none => .ok none
  | some tz =>
    match parseDateDots date_s, parseTimeColon time_s with
    | some (d, m, y), some (h, mi) =>
      match env.localToUTC tz (y, m, d, h, mi) with
      | .ok (uy, um, ud, uh, umin, usec) =>
        .ok (some (env.julday uy um ud ((uh : ℚ) + (umin : ℚ) / 60 + (usec : ℚ) / 3600)))
      | .error e => .error e
    | _, _ => .error ()

/-- convert_local_to_jd_with_tz: the whole body runs inside try/except and
any exception is converted to None (lines 188-190). -/
def convert_local_to_jd_with_tz (env : TzEnv) (date_s time_s city : String) :
    Option ℚ :=
  match convert_body env date_s time_s city with
  | .error _ => none
  | .ok r => r

/-- clean_number, line 102-103: drop every non-digit character. -/
def clean_number (l : List Char) : List Char := l.filter Char.isDigit

/-- `int(clean_number(s))`: fails exactly when no digit remains. -/
def parseIntClean (l : List Char) : Option ℤ :=
  let d := clean_number l
  if d.isEmpty then none else some (digitsToNat d : ℤ)

/-- The numeric parse of generate_natal_chart_and_summary lines 201-208
(also re-run by get_positions_from_person, lines 307-308): indexing
split(".") at 0,1,2 and split(":") at 0,1 needs at least that many parts,
extra parts are ignored; failure raises ValueError. Returns
(day, month, year, hour, minute). -/
def parse_chart_numbers (date_str time_str : String) :
    Option (ℤ × ℤ × ℤ × ℤ × ℤ) :=
  match splitOnP (· == '.') date_str.toList, splitOnP (· == ':') time_str.toList with
  | p0 :: p1 :: p2 :: _, q0 :: q1 :: _ => do
    let day ← parseIntClean p0
    let month ← parseIntClean p1
    let year ← parseIntClean p2
    let hour ← parseIntClean q0
    let minute ← parseIntClean q1
    pure (day, month, year, hour, minute)
  | _, _ => none

/-- The naive fallback `julday(year, month, day, hour + minute/60)`. -/
def naive_jd (env : TzEnv) (day month year hour minute : ℤ) : ℚ :=
  env.julday year month day ((hour : ℚ) + (minute : ℚ) / 60)

/-- Lines 210-215 and 309-312: tz-aware jd when available, naive otherwise. -/
def resolved_jd (env : TzEnv) (date_str time_str city : String)
    (day month year hour minute : ℤ) : ℚ :=
  match convert_local_to_jd_with_tz env date_str time_str city with
  | some jd => jd
  | none => naive_jd env day month year hour minute

/-- The instant computed by generate_natal_chart_and_summary (lines
200-215): ValueError on a bad date/time, else the resolved jd. -/
def chartJD (env : TzEnv) (date_str time_str city : String) : Except Unit ℚ :=
  match parse_chart_numbers date_str time_str with
  | none => .error ()
  | some (day, month, year, hour, minute) =>
    .ok (resolved_jd env date_str time_str city day month year hour minute)

/-! ### Position resolution (safe_calc_ut, lines 109-130) -/

/-- Possible shapes of a Swiss Ephemeris calc_ut result: a numeric scalar
or a composite sequence (tuple/list), possibly nested. -/
inductive OracleVal where
  | num (q : ℚ)
  | seq (l : List OracleVal)

/-- safe_calc_ut: any thrown exception gives None; a composite result is
unwrapped by its first element, and by the first element of that when it
is itself composite; an empty composite (IndexError) or a composite in
scalar position (TypeError in float()) is caught as None. -/
def safe_calc_ut (oracle : ℚ → ℤ → Except Unit OracleVal) (jd : ℚ) (code : ℤ) :
    Option ℚ :=
  match oracle jd code with
  | .error _ => none
  | .ok (.num q) => some q
  | .ok (.seq []) => none
  | .ok (.seq (.num q :: _)) => some q
  | .ok (.seq (.seq [] :: _)) => none
  | .ok (.seq (.seq (.num q :: _) :: _)) => some q
  | .ok (.seq (.seq (.seq _ :: _) :: _)) => none

/-- The position loop of generate_natal_chart_and_summary lines 217-228:
one entry per tracked body in PLANETS order; a resolved longitude is
reduced modulo 360, a failed body is stored as None. -/
def planet_positions (oracle : ℚ → ℤ → Except Unit OracleVal) (jd : ℚ) :
    List (String × Option ℚ) :=
  PLANETS.map fun p =>
    (p.1, match safe_calc_ut oracle jd p.2 with
          | none => none
          | some lon => some (pymod lon 360))

/-- get_positions_from_person of compute_synastry_and_summary (lines
303-317): same numeric parse and jd resolution, but the safe_calc_ut
result is stored as-is (no modulo reduction). -/
def get_positions_from_person (env : TzEnv) (oracle : ℚ → ℤ → Except Unit OracleVal)
    (date_s time_s city : String) : Except Unit (List (String × Option ℚ)) :=
  match parse_chart_numbers date_s time_s with
  | none => .error ()
  | some (day, month, year, hour, minute) =>
    .ok (PLANETS.map fun p =>
      (p.1, safe_calc_ut oracle
        (resolved_jd env date_s time_s city day month year hour minute) p.2))

/-! ### Concrete environments used as witnesses -/

/-- An environment with an empty timezone database. -/
def envEmpty : TzEnv where
  allTimezones := []
  localToUTC := fun _ _ => .error ()
  julday := fun _ _ _ _ => 0

/-- An environment whose zone application always throws, with a table city
still resolving a zone name: exercises the exception path. -/
def envThrow : TzEnv where
  allTimezones := []
  localToUTC := fun _ _ => .error ()
  julday := fun y m d h => ((y * 10000 + m * 100 + d : ℤ) : ℚ) + h / 24

/-- An environment holding the real zone "Europe/Moscow" (absent from
CITY_TIMEZONE) with its historical offset for 1990-05-01 (UTC+4, summer
time), and an injective stand-in day count. -/
def envMoscow : TzEnv where
  allTimezones := ["Europe/Moscow"]
  localToUTC := fun tz t =>
    if tz = "Europe/Moscow" ∧ t = (1990, 5, 1, 14, 30) then .ok (1990, 5, 1, 10, 30, 0)
    else .error ()
  julday := fun y m d h => ((y * 10000 + m * 100 + d : ℤ) : ℚ) + h / 24

/-- An oracle that throws for the Moon and yields a plain longitude for
every other body. -/
def oracleMoonDown : ℚ → ℤ → Except Unit OracleVal :=
  fun _ code => if code = 1 then .error () else .ok (.num 10)

/-- An oracle that always yields the out-of-range longitude 370. -/
def oracle370 : ℚ → ℤ → Except Unit OracleVal := fun _ _ => .ok (.num 370)

/-! ### Numeric lemmas -/

theorem pyabs_eq_abs (x : ℚ) : pyabs x = |x| := by
  unfold pyabs
  by_cases h : x < 0
  · rw [if_pos h, abs_of_neg h]
  · rw [if_neg h, abs_of_nonneg (le_of_not_lt h)]

theorem separation_eq_abs (a b : ℚ) :
    separation a b = |pymod (a - b + 180) 360 - 180| := pyabs_eq_abs _

theorem pymod_eq_fract (x : ℚ) : pymod x 360 = 360 * Int.fract (x / 360) := by
  unfold pymod Int.fract
  field_simp

theorem pymod360_nonneg (x : ℚ) : 0 ≤ pymod x 360 := by
  rw [pymod_eq_fract]
  exact mul_nonneg (by norm_num) (Int.fract_nonneg _)

theorem pymod360_lt (x : ℚ) : pymod x 360 < 360 := by
  rw [pymod_eq_fract]
  have h := Int.fract_lt_one (x / 360)
  nlinarith [Int.fract_nonneg (x / 360)]

theorem separation_comm (a b : ℚ) : separation a b = separation b a := by
  rw [separation_eq_abs, separation_eq_abs]
  rw [pymod_eq_fract, pymod_eq_fract]
  have h1 : (b - a + 180) / 360 = ((1 : ℤ) : ℚ) + -((a - b + 180) / 360) := by
    push_cast
    ring
  rw [h1, Int.fract_int_add]
  by_cases h : Int.fract ((a - b + 180) / 360) = 0
  · rw [h, Int.fract_neg_eq_zero.mpr h]
  · rw [Int.fract_neg h]
    have h2 : 360 * (1 - Int.fract ((a - b + 180) / 360)) - 180 =
        -(360 * Int.fract ((a - b + 180) / 360) - 180) := by ring
    rw [h2, abs_neg]

theorem separation_self (a : ℚ) : separation a a = 0 := by
  rw [separation_eq_abs]
  have h1 : a - a + 180 = (180 : ℚ) := by ring
  rw [h1]
  have h2 : pymod 180 360 = 180 := by
    unfold pymod
    have h3 : ⌊(180 : ℚ) / 360⌋ = 0 := by
      rw [Int.floor_eq_zero_iff]
      constructor <;> norm_num
    rw [h3]
    norm_num
  rw [h2]
  norm_num

theorem pymod_520 : pymod 520 360 = 160 := by
  unfold pymod
  norm_num

theorem separation_350_10 : separation 350 10 = 20 := by
  unfold separation
  norm_num [pymod_520, pyabs]

theorem classify_zero : classify_aspect 0 = AspectMood.conjunction := by
  unfold classify_aspect
  norm_num

theorem classify_180 : classify_aspect 180 = AspectMood.opposition := by
  unfold classify_aspect pyabs
  norm_num

theorem classify_60 : classify_aspect 60 = AspectMood.sextile := by
  unfold classify_aspect pyabs
  norm_num

theorem classify_84 : classify_aspect 84 = AspectMood.square := by
  unfold classify_aspect pyabs
  norm_num

theorem classify_8 : classify_aspect 8 = AspectMood.minor := by
  unfold classify_aspect pyabs
  norm_num

theorem classify_97 : classify_aspect 97 = AspectMood.minor := by
  unfold classify_aspect pyabs
  norm_num

/-! ### Claim theorems -/

/-- C1: templates are evaluated in the fixed precedence order Conjunction,
Opposition, Trine, Square, Sextile with first match winning: a separation
of exactly 0 classifies as Conjunction, exactly 180 as Opposition, exactly
60 as Sextile, exactly 84 as Square; and for two position maps with
identical longitudes every shared resolved body is classified as
Conjunction with separation 0. -/
theorem c1_precedence_and_identical_charts :
    classify_aspect 0 = AspectMood.conjunction ∧
    classify_aspect 180 = AspectMood.opposition ∧
    classify_aspect 60 = AspectMood.sextile ∧
    classify_aspect 84 = AspectMood.square ∧
    ∀ posA posB : List (String × Option ℚ),
      (∀ k, dictGet posA k = dictGet posB k) →
      ∀ e ∈ inter_aspects posA posB,
        e.2.1 = 0 ∧ e.2.2 = AspectMood.conjunction := by
  refine ⟨classify_zero, classify_180, classify_60, classify_84, ?_⟩
  intro posA posB hk e he
  unfold inter_aspects at he
  rw [List.mem_filterMap] at he
  obtain ⟨p, hp, hpe⟩ := he
  have hkp := hk p.1
  rcases hA : dictGet posA p.1 with _ | a
  · simp [hA] at hpe
  · rcases hB : dictGet posB p.1 with _ | b
    · simp [hA, hB] at hpe
    · rw [hA, hB] at hkp
      have hab : a = b := Option.some.inj hkp
      subst hab
      simp only [hA, hB] at hpe
      have he2 : (p.1, separation a a, classify_aspect (separation a a)) = e :=
        Option.some.inj hpe
      subst he2
      constructor
      · exact separation_self a
      · show classify_aspect (separation a a) = AspectMood.conjunction
        rw [separation_self]
        exact classify_zero

theorem c1_witness :
    (("Sun", ((0 : ℚ), AspectMood.conjunction)) : String × ℚ × AspectMood).2.1 = 0 ∧
    (("Sun", ((0 : ℚ), AspectMood.conjunction)) : String × ℚ × AspectMood).2.2 =
      AspectMood.conjunction :=
  c1_precedence_and_identical_charts.2.2.2.2
    [("Sun", some 100)] [("Sun", some 100)] (fun _ => rfl)
    ("Sun", 0, AspectMood.conjunction) (by
      have h : inter_aspects [("Sun", some 100)] [("Sun", some 100)] =
          [("Sun", separation 100 100, classify_aspect (separation 100 100))] := rfl
      rw [h, separation_self, classify_zero]
      simp)

/-- C2: the angular separation lies in [0, 180], is symmetric, and handles
wraparound so that separation 350 10 = 20. -/
theorem c2_separation_range_and_symmetry :
    (∀ a b : ℚ, 0 ≤ separation a b ∧ separation a b ≤ 180 ∧
      separation a b = separation b a) ∧
    separation 350 10 = 20 := by
  refine ⟨fun a b => ⟨?_, ?_, separation_comm a b⟩, separation_350_10⟩
  · rw [separation_eq_abs]
    exact abs_nonneg _
  · rw [separation_eq_abs]
    have h1 := pymod360_nonneg (a - b + 180)
    have h2 := pymod360_lt (a - b + 180)
    rw [abs_le]
    constructor <;> linarith

/-- C3 (amended): the aspect tolerance windows exclude their boundary —
the comparisons are strict, so a separation within the strict window of a
template, with no earlier template matching, classifies as that template,
while a separation of exactly 8 and a separation of exactly 97 both
classify as minor aspects. -/
theorem c3_strict_tolerance_windows :
    (∀ d : ℚ, d < 8 → classify_aspect d = AspectMood.conjunction) ∧
    (∀ d : ℚ, ¬ d < 8 → pyabs (d - 180) < 8 →
      classify_aspect d = AspectMood.opposition) ∧
    (∀ d : ℚ, ¬ d < 8 → ¬ pyabs (d - 180) < 8 → pyabs (d - 120) < 8 →
      classify_aspect d = AspectMood.trine) ∧
    (∀ d : ℚ, ¬ d < 8 → ¬ pyabs (d - 180) < 8 → ¬ pyabs (d - 120) < 8 →
      pyabs (d - 90) < 7 → classify_aspect d = AspectMood.square) ∧
    (∀ d : ℚ, ¬ d < 8 → ¬ pyabs (d - 180) < 8 → ¬ pyabs (d - 120) < 8 →
      ¬ pyabs (d - 90) < 7 → pyabs (d - 60) < 6 →
      classify_aspect d = AspectMood.sextile) ∧
    classify_aspect 8 = AspectMood.minor ∧
    classify_aspect 97 = AspectMood.minor := by
  refine ⟨?_, ?_, ?_, ?_, ?_, classify_8, classify_97⟩
  · intro d h1
    unfold classify_aspect
    rw [if_pos h1]
  · intro d h1 h2
    unfold classify_aspect
    rw [if_neg h1, if_pos h2]
  · intro d h1 h2 h3
    unfold classify_aspect
    rw [if_neg h1, if_neg h2, if_pos h3]
  · intro d h1 h2 h3 h4
    unfold classify_aspect
    rw [if_neg h1, if_neg h2, if_neg h3, if_pos h4]
  · intro d h1 h2 h3 h4 h5
    unfold classify_aspect
    rw [if_neg h1, if_neg h2, if_neg h3, if_neg h4, if_pos h5]

theorem c3_witness : classify_aspect 84 = AspectMood.square :=
  c3_strict_tolerance_windows.2.2.2.1 84 (by norm_num) (by norm_num [pyabs])
    (by norm_num [pyabs]) (by norm_num [pyabs])

/-- C3 counterexample: a separation of exactly 8 does not classify as
Conjunction, and a separation of exactly 97 does not classify as Square —
the windows exclude their boundary. -/
theorem c3_counterexample :
    classify_aspect 8 ≠ AspectMood.conjunction ∧
    classify_aspect 97 ≠ AspectMood.square := by
  rw [classify_8, classify_97]
  constructor <;> decide

theorem fallback_scan_error_iff (text : List Char) :
    fallback_scan text = .error () ↔ fallback_has_pair text = false := by
  cases h : scanDateTok [] (pyTokens text) with
  | none => simp [fallback_scan, fallback_has_pair, h]
  | some v =>
    obtain ⟨before, d, rest⟩ := v
    cases rest with
    | nil => simp [fallback_scan, fallback_has_pair, h]
    | cons t rest2 =>
      by_cases ht : matchesTime t = true
      · simp [fallback_scan, fallback_has_pair, h, ht]
      · simp [fallback_scan, fallback_has_pair, h,
          Bool.not_eq_true _ ▸ ht]

/-- C8 (amended): parse fails exactly when both delimiter splits recover
fewer than 4 fields and the whitespace token scan finds no date token
immediately followed by a time token; the HH:MM token is required, so an
input whose first date token has no immediately-following time token
fails rather than being parsed into a record. -/
theorem c8_failure_characterization :
    ∀ text : List Char,
      parse_chars text = .error () ↔
      ((recoveredParts text).length < 4 ∧ fallback_has_pair text = false) := by
  intro text
  rcases h : recoveredParts text with _ | ⟨a, _ | ⟨b, _ | ⟨c, _ | ⟨d, rest⟩⟩⟩⟩
  · simp [parse_chars, h, fallback_scan_error_iff text]
  · simp [parse_chars, h, fallback_scan_error_iff text]
  · simp [parse_chars, h, fallback_scan_error_iff text]
  · simp [parse_chars, h, fallback_scan_error_iff text]
  · simp [parse_chars, h]

/-- C8 counterexample: an input holding a date token with no following
time token contains a date token yet fails with the format error, against
the claim that the time token is optional in the scan. -/
theorem c8_counterexample :
    parse_input_flexible "Ann 01.05.1990 Москва" = .error () ∧
    (pyTokens ("Ann 01.05.1990 Москва".toList)).any matchesDate = true := by
  decide

/-- C9: the comma-delimited input parses via the primary split (4 parts)
and the whitespace input parses via the token-scan fallback (1 recovered
part), both to the same record. -/
theorem c9_parser_roundtrip :
    parse_input_flexible "Ann, 01.05.1990, 14:30, Москва" =
      .ok ("Ann", "01.05.1990", "14:30", "Москва") ∧
    parse_input_flexible "Ann 01.05.1990 14:30 Москва" =
      .ok ("Ann", "01.05.1990", "14:30", "Москва") ∧
    (recoveredParts ("Ann, 01.05.1990, 14:30, Москва".toList)).length = 4 ∧
    (recoveredParts ("Ann 01.05.1990 14:30 Москва".toList)).length = 1 := by
  decide

theorem parse_chars_of_short (text : List Char)
    (hlen : (recoveredParts text).length < 4) :
    parse_chars text = fallback_scan text := by
  rcases h : recoveredParts text with _ | ⟨a, _ | ⟨b, _ | ⟨c, _ | ⟨d, rest⟩⟩⟩⟩
  · simp [parse_chars, h]
  · simp [parse_chars, h]
  · simp [parse_chars, h]
  · simp [parse_chars, h]
  · rw [h] at hlen
    simp at hlen
    omega

/-- C10: in the token-scan fallback, an empty name segment and an empty
place segment are replaced by the placeholder, and the concrete input of
only a date and a time parses to a record with both placeholders. -/
theorem c10_unknown_placeholders :
    (∀ (text : List Char) d t rest,
      scanDateTok [] (pyTokens text) = some ([], d, t :: rest) →
      matchesTime t = true → (recoveredParts text).length < 4 →
      ∃ c, parse_chars text = .ok (unknownField, d, t, c)) ∧
    (∀ (text : List Char) before d t,
      scanDateTok [] (pyTokens text) = some (before, d, [t]) →
      matchesTime t = true → (recoveredParts text).length < 4 →
      ∃ n, parse_chars text = .ok (n, d, t, unknownField)) ∧
    parse_input_flexible "01.05.1990 14:30" =
      .ok ("Неизвестно", "01.05.1990", "14:30", "Неизвестно") := by
  refine ⟨?_, ?_, by decide⟩
  · intro text d t rest hscan htime hlen
    refine ⟨orUnknown (pyStrip (List.intercalate [' '] rest)), ?_⟩
    rw [parse_chars_of_short text hlen]
    simp [fallback_scan, hscan, htime]
    rfl
  · intro text before d t hscan htime hlen
    refine ⟨orUnknown (pyStrip (List.intercalate [' '] before)), ?_⟩
    rw [parse_chars_of_short text hlen]
    simp [fallback_scan, hscan, htime]
    rfl

theorem c10_witness :
    ∃ c, parse_chars ("01.05.1990 14:30".toList) =
      .ok (unknownField, "01.05.1990".toList, "14:30".toList, c) :=
  c10_unknown_placeholders.1 ("01.05.1990 14:30".toList)
    ("01.05.1990".toList) ("14:30".toList) []
    (by decide) (by decide) (by decide)

/-- C4 (amended): for every environment and every input whose place is
neither a key of the city table nor a member of the timezone database,
the computed instant is the naive julian day of the given calendar date
and decimal hour, with no UTC conversion, regardless of what the zone
application would have thrown. -/
theorem c4_naive_when_place_unresolvable :
    ∀ (env : TzEnv) (ds ts city : String) (day month year hour minute : ℤ),
      CITY_TIMEZONE.lookup city = none →
      city ∉ env.allTimezones →
      parse_chart_numbers ds ts = some (day, month, year, hour, minute) →
      chartJD env ds ts city = .ok (naive_jd env day month year hour minute) := by
  intro env ds ts city day month year hour minute hlk hmem hp
  have hr : resolve_tz_name env city = none := by
    unfold resolve_tz_name
    rw [hlk]
    simp [hmem]
  have hb : convert_body env ds ts city = .ok none := by
    unfold convert_body
    rw [hr]
  have hc : convert_local_to_jd_with_tz env ds ts city = none := by
    unfold convert_local_to_jd_with_tz
    rw [hb]
  unfold chartJD
  rw [hp]
  unfold resolved_jd
  rw [hc]

theorem c4_witness :
    chartJD envEmpty "01.05.1990" "14:30" "Nowhere" =
      .ok (naive_jd envEmpty 1 5 1990 14 30) :=
  c4_naive_when_place_unresolvable envEmpty "01.05.1990" "14:30" "Nowhere"
    1 5 1990 14 30 (by decide) (by decide) (by decide)

/-- C4 counterexample: the place "Europe/Moscow" is not a key of the city
table, yet it is a valid timezone identifier, so the code takes the
tz-aware path (local 14:30 converted to UTC 10:30 under the historical
UTC+4 offset of 1990-05-01) and the computed instant differs from the
naive julian day of the given wall-clock time. -/
theorem c4_counterexample :
    CITY_TIMEZONE.lookup "Europe/Moscow" = none ∧
    parse_chart_numbers "01.05.1990" "14:30" = some (1, 5, 1990, 14, 30) ∧
    chartJD envMoscow "01.05.1990" "14:30" "Europe/Moscow" =
      .ok (19900501 + 7 / 16) ∧
    naive_jd envMoscow 1 5 1990 14 30 = 19900501 + 29 / 48 ∧
    ((19900501 + 7 / 16 : ℚ) ≠ 19900501 + 29 / 48) := by
  refine ⟨by decide, by decide, ?_, ?_, by norm_num⟩
  · have hp : parse_chart_numbers "01.05.1990" "14:30" =
        some (1, 5, 1990, 14, 30) := by decide
    have hb : convert_body envMoscow "01.05.1990" "14:30" "Europe/Moscow" =
        .ok (some (envMoscow.julday 1990 5 1 ((10 : ℚ) + 30 / 60 + 0 / 3600))) := by
      have hr : resolve_tz_name envMoscow "Europe/Moscow" = some "Europe/Moscow" := by
        decide
      have hd : parseDateDots "01.05.1990" = some (1, 5, 1990) := by decide
      have ht : parseTimeColon "14:30" = some (14, 30) := by decide
      have hl : envMoscow.localToUTC "Europe/Moscow" (1990, 5, 1, 14, 30) =
          .ok (1990, 5, 1, 10, 30, 0) := by decide
      simp [convert_body, hr, hd, ht, hl]
    simp [chartJD, hp, resolved_jd, convert_local_to_jd_with_tz, hb]
    simp [envMoscow]
    norm_num
  · simp [naive_jd, envMoscow]
    norm_num

/-- C5: any exception inside the timezone-aware conversion body is caught
inside convert_local_to_jd_with_tz, which yields the absence value
instead of propagating, and the caller then computes the instant by the
naive decimal-hour path. -/
theorem c5_exception_containment :
    (∀ (env : TzEnv) (ds ts city : String),
      convert_body env ds ts city = .error () →
      convert_local_to_jd_with_tz env ds ts city = none) ∧
    (∀ (env : TzEnv) (ds ts city : String) (day month year hour minute : ℤ),
      parse_chart_numbers ds ts = some (day, month, year, hour, minute) →
      convert_body env ds ts city = .error () →
      chartJD env ds ts city = .ok (naive_jd env day month year hour minute)) := by
  constructor
  · intro env ds ts city hb
    unfold convert_local_to_jd_with_tz
    rw [hb]
  · intro env ds ts city day month year hour minute hp hb
    unfold chartJD
    rw [hp]
    unfold resolved_jd convert_local_to_jd_with_tz
    rw [hb]

theorem c5_witness :
    convert_local_to_jd_with_tz envThrow "01.05.1990" "14:30" "Москва" = none ∧
    chartJD envThrow "01.05.1990" "14:30" "Москва" =
      .ok (naive_jd envThrow 1 5 1990 14 30) :=
  ⟨c5_exception_containment.1 envThrow "01.05.1990" "14:30" "Москва" (by decide),
   c5_exception_containment.2 envThrow "01.05.1990" "14:30" "Москва"
     1 5 1990 14 30 (by decide) (by decide)⟩

/-- C6: with an oracle throwing for exactly one tracked body and returning
plain longitudes for the others, the position map keeps one entry per body
in the fixed PLANETS order, with the failing body unresolved and the six
others resolved; and a composite oracle result is unwrapped by its first
element, or the first element of that when it is itself composite. -/
theorem c6_resolver_resilience :
    (∀ (oracle : ℚ → ℤ → Except Unit OracleVal) (jd : ℚ) (code₀ : ℤ) (f : ℤ → ℚ),
      code₀ ∈ planet_codes →
      oracle jd code₀ = .error () →
      (∀ c ∈ planet_codes, c ≠ code₀ → oracle jd c = .ok (.num (f c))) →
      planet_positions oracle jd =
        PLANETS.map (fun p =>
          (p.1, if p.2 = code₀ then none else some (pymod (f p.2) 360))) ∧
      (planet_positions oracle jd).map Prod.fst = planet_names ∧
      ((planet_positions oracle jd).filter (fun p => p.2.isNone)).length = 1 ∧
      ((planet_positions oracle jd).filter (fun p => p.2.isSome)).length = 6) ∧
    (∀ (oracle : ℚ → ℤ → Except Unit OracleVal) (jd : ℚ) (code : ℤ) (q : ℚ) rest,
      oracle jd code = .ok (.seq (.num q :: rest)) →
      safe_calc_ut oracle jd code = some q) ∧
    (∀ (oracle : ℚ → ℤ → Except Unit OracleVal) (jd : ℚ) (code : ℤ) (q : ℚ) inner rest,
      oracle jd code = .ok (.seq (.seq (.num q :: inner) :: rest)) →
      safe_calc_ut oracle jd code = some q) := by
  refine ⟨?_, ?_, ?_⟩
  · intro oracle jd code₀ f hmem herr hok
    have hd : code₀ = 0 ∨ code₀ = 1 ∨ code₀ = 2 ∨ code₀ = 3 ∨
        code₀ = 4 ∨ code₀ = 5 ∨ code₀ = 6 := by
      simpa [planet_codes, PLANETS] using hmem
    have heq : planet_positions oracle jd =
        PLANETS.map (fun p =>
          (p.1, if p.2 = code₀ then none else some (pymod (f p.2) 360))) := by
      unfold planet_positions
      apply List.map_congr_left
      intro p hp
      by_cases hc : p.2 = code₀
      · have hs : safe_calc_ut oracle jd p.2 = none := by
          unfold safe_calc_ut
          rw [hc, herr]
        rw [hc] at hs
        simp [hs, hc]
      · have hpc : p.2 ∈ planet_codes := List.mem_map_of_mem Prod.snd hp
        have hs : safe_calc_ut oracle jd p.2 = some (f p.2) := by
          unfold safe_calc_ut
          rw [hok p.2 hpc hc]
        simp [hs, hc]
    refine ⟨heq, rfl, ?_, ?_⟩
    · rw [heq]
      rcases hd with rfl | rfl | rfl | rfl | rfl | rfl | rfl <;> simp [PLANETS]
    · rw [heq]
      rcases hd with rfl | rfl | rfl | rfl | rfl | rfl | rfl <;> simp [PLANETS]
  · intro oracle jd code q rest h
    unfold safe_calc_ut
    rw [h]
  · intro oracle jd code q inner rest h
    unfold safe_calc_ut
    rw [h]

theorem c6_witness :
    planet_positions oracleMoonDown 0 =
      PLANETS.map (fun p =>
        (p.1, if p.2 = 1 then none
              else some (pymod ((fun _ => (10 : ℚ)) p.2) 360))) ∧
    (planet_positions oracleMoonDown 0).map Prod.fst = planet_names ∧
    ((planet_positions oracleMoonDown 0).filter (fun p => p.2.isNone)).length = 1 ∧
    ((planet_positions oracleMoonDown 0).filter (fun p => p.2.isSome)).length = 6 :=
  c6_resolver_resilience.1 oracleMoonDown 0 1 (fun _ => 10)
    (by decide) rfl
    (by
      intro c hc hne
      have hd : c = 0 ∨ c = 1 ∨ c = 2 ∨ c = 3 ∨ c = 4 ∨ c = 5 ∨ c = 6 := by
        simpa [planet_codes, PLANETS] using hc
      rcases hd with rfl | rfl | rfl | rfl | rfl | rfl | rfl <;>
        first
        | rfl
        | exact absurd rfl hne)

/-- C7 (amended): every resolved longitude of the single-chart position
map is reduced modulo 360 into [0, 360), but the synastry position
extraction stores the raw safe_calc_ut result with no reduction. -/
theorem c7_mod_only_in_single_chart :
    (∀ (oracle : ℚ → ℤ → Except Unit OracleVal) (jd : ℚ) (name : String) (lon : ℚ),
      (name, some lon) ∈ planet_positions oracle jd → 0 ≤ lon ∧ lon < 360) ∧
    (∀ (env : TzEnv) (oracle : ℚ → ℤ → Except Unit OracleVal)
      (ds ts city : String) (day month year hour minute : ℤ),
      parse_chart_numbers ds ts = some (day, month, year, hour, minute) →
      get_positions_from_person env oracle ds ts city =
        .ok (PLANETS.map fun p =>
          (p.1, safe_calc_ut oracle
            (resolved_jd env ds ts city day month year hour minute) p.2))) := by
  constructor
  · intro oracle jd name lon hmem
    unfold planet_positions at hmem
    rw [List.mem_map] at hmem
    obtain ⟨p, hp, hpe⟩ := hmem
    rcases hs : safe_calc_ut oracle jd p.2 with _ | l
    · simp [hs] at hpe
    · simp only [hs] at hpe
      have h2 : pymod l 360 = lon := by
        have := congrArg Prod.snd hpe
        simpa using this
      rw [← h2]
      exact ⟨pymod360_nonneg l, pymod360_lt l⟩
  · intro env oracle ds ts city day month year hour minute hp
    unfold get_positions_from_person
    rw [hp]

theorem c7_witness : 0 ≤ (10 : ℚ) ∧ (10 : ℚ) < 360 :=
  c7_mod_only_in_single_chart.1 oracle370 0 "Sun" 10 (by
    have h10 : pymod 370 360 = 10 := by
      unfold pymod
      norm_num
    simp [planet_positions, PLANETS, safe_calc_ut, oracle370, h10])

/-- C7 counterexample: with an oracle returning the longitude 370 the
synastry position extraction stores 370 itself for every body — a value
outside [0, 360), showing the synastry map is not reduced modulo 360. -/
theorem c7_counterexample :
    get_positions_from_person envEmpty oracle370 "01.05.1990" "14:30" "Nowhere" =
      .ok [("Sun", some 370), ("Moon", some 370), ("Mercury", some 370),
           ("Venus", some 370), ("Mars", some 370), ("Jupiter", some 370),
           ("Saturn", some 370)] ∧
    ¬ ((370 : ℚ) < 360) := by
  refine ⟨rfl, by norm_num⟩

end AstroLuna
